import Mathlib

set_option linter.unusedVariables false

/-!
Verification development for the huddle-up multi-agent orchestration layer.

The embedding models the two services that carry real logic:

* the schedule agent (`analyze_schedule_image`, `create_events`,
  `call_laravel_create_event`, `call_llm_for_schedule_analysis`), and
* the team-captain coordinator (`process_schedule_photo`,
  `call_schedule_agent_analyze_image`, `call_schedule_agent_create_events`).

JSON payloads exchanged between the services are modelled by the inductive
type `JVal`, with Python dictionary semantics (`get` with default, in-place
key update preserving insertion order) and Python truthiness made explicit.
Every outbound HTTP call is an external effect, so each call site receives
its outcome (`HttpResult`: either a response with status, raw body and parsed
JSON, or a transport fault carrying the stringified exception) as an explicit
argument or oracle; wall-clock timestamps produced by `datetime.now()` are
likewise passed in as a `now` string.  The one place a handler body can raise
past its local handlers is `len()` applied to an unsized value, modelled by
`pyLen`; handler bodies are therefore `Except String`-valued and the outer
`try/except` of each tool is the catch wrapper around the body.
-/

/-- JSON-like values: the shape of the Python payloads exchanged by the
services. `fnum` covers the one float literal (the mock confidence score). -/
inductive JVal where
  | null : JVal
  | bool (b : Bool) : JVal
  | num (n : Int) : JVal
  | fnum (q : Rat) : JVal
  | str (s : String) : JVal
  | arr (xs : List JVal) : JVal
  | obj (kvs : List (String × JVal)) : JVal

/-- First value bound to a key in an association list, as Python dict lookup. -/
def lookupKey : List (String × JVal) → String → Option JVal
  | [], _ => none
  | (k, v) :: rest, key => if k = key then some v else lookupKey rest key

/-- Python `d[k] = v`: overwrite in place if the key exists, else append. -/
def setKey : List (String × JVal) → String → JVal → List (String × JVal)
  | [], k, v => [(k, v)]
  | (k1, v1) :: rest, k, v =>
      if k1 = k then (k, v) :: rest else (k1, v1) :: setKey rest k v

/-- `d.get(k)` on a JSON object; `none` when the key is absent or the value
is not an object. -/
def JVal.getKey : JVal → String → Option JVal
  | .obj kvs, k => lookupKey kvs k
  | _, _ => none

/-- Python `d.get(k, default)`. -/
def JVal.getD (v : JVal) (k : String) (d : JVal) : JVal :=
  (v.getKey k).getD d

/-- Python truthiness of a JSON value. -/
def JVal.truthy : JVal → Bool
  | .null => false
  | .bool b => b
  | .num n => n != 0
  | .fnum q => q != 0
  | .str s => s != ""
  | .arr xs => !xs.isEmpty
  | .obj kvs => !kvs.isEmpty

/-- Python `len()`: defined on sized values, raises `TypeError` otherwise.
The error string is the surfaced exception text. -/
def pyLen : JVal → Except String Nat
  | .str s => .ok s.length
  | .arr xs => .ok xs.length
  | .obj kvs => .ok kvs.length
  | .null => .error "object of type NoneType has no len()"
  | .bool _ => .error "object of type bool has no len()"
  | .num _ => .error "object of type int has no len()"
  | .fnum _ => .error "object of type float has no len()"

/-- Python `x.get(k, default)` on a value of unknown shape: only dictionaries
have a `get` attribute, so a non-dict receiver raises `AttributeError`.  The
error string is the surfaced exception text. -/
def pyGet : JVal → String → JVal → Except String JVal
  | .obj kvs, k, d => .ok ((lookupKey kvs k).getD d)
  | .null, _, _ => .error "NoneType object has no attribute get"
  | .bool _, _, _ => .error "bool object has no attribute get"
  | .num _, _, _ => .error "int object has no attribute get"
  | .fnum _, _, _ => .error "float object has no attribute get"
  | .str _, _, _ => .error "str object has no attribute get"
  | .arr _, _, _ => .error "list object has no attribute get"

/-- Outcome of one outbound HTTP POST as seen by the calling code: either a
response (status code, raw body text, body parsed as JSON) or a transport
fault (timeout, connection refused, DNS failure) carrying `str(e)`. -/
inductive HttpResult where
  | resp (status : Nat) (body : String) (json : JVal) : HttpResult
  | fault (desc : String) : HttpResult

/-- The transport-fault description of an outcome, if it is a fault. -/
def HttpResult.faultDesc : HttpResult → Option String
  | .resp _ _ _ => none
  | .fault d => some d

/-! ## Schedule agent (`src/schedule-agent/main.py`) -/

/-- Input model `ScheduleImageAnalysisRequest`. -/
structure ScheduleImageAnalysisRequest where
  team_id : Int
  file_content : String
  file_name : String
  file_size : Int
  mime_type : String
  uploaded_at : String

/-- Input model `EventCreationRequest`: pydantic guarantees `events` is a
list of dictionaries. -/
structure EventCreationRequest where
  team_id : Int
  events : List (List (String × JVal))

/-- `call_laravel_create_event`: POST one event to the Laravel API; any 200
or 201 status is success wrapping the response JSON, any other status is a
failure with error `"HTTP {status}: {body}"`, and a transport fault is a
failure with error `str(e)`.  `event_data` is the (already team-tagged) POST
body; it does not influence the normalized result. -/
def call_laravel_create_event (event_data : List (String × JVal))
    (r : HttpResult) : JVal :=
  match r with
  | .resp status body json =>
      if status = 200 ∨ status = 201 then
        .obj [("success", .bool true), ("event", json)]
      else
        .obj [("success", .bool false),
              ("error", .str ("HTTP " ++ toString status ++ ": " ++ body))]
  | .fault desc =>
      .obj [("success", .bool false), ("error", .str desc)]

/-- Result of the `create_events` per-event loop: the `created_events` and
`failed_events` accumulators plus the number of downstream calls made. -/
structure LoopResult where
  created : List JVal
  failed : List JVal
  calls : Nat

/-- The `for event_data in data.events` loop of `create_events`: tag each
event with the team id in place, call the Laravel API (outcome given by
`oracle` at the event's position), and classify the result into the
created-list (the response's `event` payload) or the failed-list (the tagged
event data plus the error string). -/
def create_events_loop (oracle : Nat → HttpResult) (tid : Int) :
    List (List (String × JVal)) → Nat → LoopResult
  | [], _ => ⟨[], [], 0⟩
  | ev :: rest, i =>
      let ev2 := setKey ev "team_id" (.num tid)
      let result := call_laravel_create_event ev2 (oracle i)
      let r := create_events_loop oracle tid rest (i + 1)
      if (result.getD "success" (.bool false)).truthy then
        ⟨(result.getKey "event").getD .null :: r.created, r.failed, r.calls + 1⟩
      else
        ⟨r.created,
         .obj [("event_data", .obj ev2),
               ("error", result.getD "error" (.str "Unknown error"))] :: r.failed,
         r.calls + 1⟩

/-- Tool `create_events`: run the per-event loop and report aggregate counts,
the two lists, the team id and a timestamp (`now` stands for
`datetime.now().isoformat()`). -/
def create_events (oracle : Nat → HttpResult) (now : String) (tid : Int)
    (events : List (List (String × JVal))) : JVal :=
  let r := create_events_loop oracle tid events 0
  .obj [("success", .bool true),
        ("message", .str ("Event creation completed: " ++
          toString r.created.length ++ " created, " ++
          toString r.failed.length ++ " failed")),
        ("events_created", .num (r.created.length : Int)),
        ("events_failed", .num (r.failed.length : Int)),
        ("created_events", .arr r.created),
        ("failed_events", .arr r.failed),
        ("team_id", .num tid),
        ("processed_at", .str now)]

/-- Number of downstream Laravel calls `create_events` performs. -/
def create_events_calls (oracle : Nat → HttpResult) (tid : Int)
    (events : List (List (String × JVal))) : Nat :=
  (create_events_loop oracle tid events 0).calls

/-- The three hardcoded mock events returned by the placeholder LLM call. -/
def mock_events : List JVal :=
  [.obj [("title", .str "Team Practice"), ("date", .str "2025-01-15"),
         ("time", .str "18:00:00"), ("location", .str "Main Field"),
         ("type", .str "practice"),
         ("description", .str "Regular team practice session")],
   .obj [("title", .str "Home Game vs Eagles"), ("date", .str "2025-01-22"),
         ("time", .str "19:00:00"), ("location", .str "Stadium"),
         ("type", .str "game"),
         ("description", .str "Home game against Eagles")],
   .obj [("title", .str "Away Game vs Panthers"), ("date", .str "2025-01-29"),
         ("time", .str "17:30:00"), ("location", .str "Panthers Stadium"),
         ("type", .str "game"),
         ("description", .str "Away game against Panthers")]]

/-- `call_llm_for_schedule_analysis`: placeholder that always succeeds with
the three mock events and a fixed confidence score. -/
def call_llm_for_schedule_analysis (file_content : List Nat)
    (mime_type : String) : JVal :=
  .obj [("success", .bool true),
        ("events", .arr mock_events),
        ("analysis_confidence", .fnum (95 / 100 : Rat))]

/-- Tool `analyze_schedule_image`, returning the result dictionary together
with a flag recording whether the downstream LLM-analysis call was invoked.
`decode` stands for `base64.b64decode`; its failure message is the caught
exception's text. -/
def analyze_schedule_image (decode : String → Except String (List Nat))
    (now : String) (d : ScheduleImageAnalysisRequest) : JVal × Bool :=
  match decode d.file_content with
  | .error e =>
      (.obj [("success", .bool false),
             ("message", .str "Failed to decode uploaded file"),
             ("error", .str e)], false)
  | .ok file_content =>
      let analysis_results := call_llm_for_schedule_analysis file_content d.mime_type
      if ¬ (analysis_results.getD "success" (.bool false)).truthy then
        (analysis_results, true)
      else
        let events := analysis_results.getD "events" (.arr [])
        let n := (pyLen events).toOption.getD 0
        (.obj [("success", .bool true),
               ("message", .str ("Schedule image analyzed successfully - " ++
                 toString n ++ " events found")),
               ("events", events),
               ("total_events", .num (n : Int)),
               ("team_id", .num d.team_id),
               ("file_processed", .str d.file_name),
               ("processed_at", .str now),
               ("analysis_method", .str "llm_vision")], true)

/-! ## Team-captain coordinator (`src/team-captain-agent/main.py`) -/

/-- Input model `SchedulePhotoData`. -/
structure SchedulePhotoData where
  team_id : Int
  file_content : String
  file_name : String
  file_size : Int
  mime_type : String
  uploaded_at : String

/-- `call_schedule_agent_analyze_image`: POST the photo payload to the
schedule agent; on status exactly 200 return the decoded JSON body, on any
other status return a failure with `"HTTP {status}: {body}"`, and on a
transport fault return a failure with `str(e)`. -/
def call_schedule_agent_analyze_image (d : SchedulePhotoData)
    (r : HttpResult) : JVal :=
  match r with
  | .resp status body json =>
      if status = 200 then json
      else
        .obj [("success", .bool false),
              ("error", .str ("HTTP " ++ toString status ++ ": " ++ body))]
  | .fault desc =>
      .obj [("success", .bool false), ("error", .str desc)]

/-- `call_schedule_agent_create_events`: same normalization as the analyze
helper, for the `create_events` capability; `payload` is the POSTed body. -/
def call_schedule_agent_create_events (payload : JVal) (r : HttpResult) : JVal :=
  match r with
  | .resp status body json =>
      if status = 200 then json
      else
        .obj [("success", .bool false),
              ("error", .str ("HTTP " ++ toString status ++ ": " ++ body))]
  | .fault desc =>
      .obj [("success", .bool false), ("error", .str desc)]

/-- Body of `process_schedule_photo` (the code inside the outer `try`),
returning the result dictionary and a flag recording whether the
event-creation capability was invoked, or the text of an uncaught exception.
`ar` and `cr` are the outcomes of the analyze and create HTTP calls.

The first `.get` on each foreign payload (`schedule_analysis.get("success")`
and `event_creation.get("success")`) goes through `pyGet`, since a non-dict
200 response makes Python raise `AttributeError` there; every later `.get`
in the source runs on a receiver already proven to be a dict by that first
`.get` (or on a literal dict), so it cannot raise and is modelled by the
total `JVal.getD`. -/
def process_schedule_photo_body (d : SchedulePhotoData) (ar cr : HttpResult) :
    Except String (JVal × Bool) :=
  let schedule_analysis := call_schedule_agent_analyze_image d ar
  match pyGet schedule_analysis "success" (.bool false) with
  | .error e => .error e
  | .ok sa_success =>
    if ¬ sa_success.truthy then
      .ok (.obj [("success", .bool false),
                 ("message", .str "Failed to analyze schedule image"),
                 ("error", schedule_analysis.getD "error" (.str "Unknown error")),
                 ("team_id", .num d.team_id)], false)
    else
      let events := schedule_analysis.getD "events" (.arr [])
      match pyLen events with
      | .error e => .error e
      | .ok n =>
        let step3 : JVal → JVal := fun event_creation =>
          .obj [("success", .bool true),
                ("message", .str ("Schedule processed successfully - " ++
                  toString n ++ " events found")),
                ("analysis_results", .obj
                  [("events_found", .num (n : Int)),
                   ("events_created", event_creation.getD "events_created" (.num 0)),
                   ("file_processed", .str d.file_name),
                   ("file_size", .num d.file_size),
                   ("processing_completed_at", .str d.uploaded_at)]),
                ("parsed_events", events),
                ("team_id", .num d.team_id)]
        if events.truthy then
          let event_creation := call_schedule_agent_create_events
            (.obj [("team_id", .num d.team_id), ("events", events)]) cr
          match pyGet event_creation "success" (.bool false) with
          | .error e => .error e
          | .ok ec_success =>
            if ¬ ec_success.truthy then
              .ok (.obj [("success", .bool false),
                         ("message", .str "Failed to create events from schedule"),
                         ("error", event_creation.getD "error" (.str "Unknown error")),
                         ("parsed_events", events),
                         ("team_id", .num d.team_id)], true)
            else
              .ok (step3 event_creation, true)
        else
          .ok (step3 (.obj [("success", .bool true), ("events_created", .num 0)]),
               false)

/-- Tool `process_schedule_photo`: the body wrapped in the outer
`try/except`, which converts any uncaught exception into a failure result
carrying the exception text. -/
def process_schedule_photo (d : SchedulePhotoData) (ar cr : HttpResult) :
    JVal × Bool :=
  match process_schedule_photo_body d ar cr with
  | .ok v => v
  | .error e =>
      (.obj [("success", .bool false),
             ("message", .str ("Failed to process schedule photo: " ++ e)),
             ("team_id", .num d.team_id)], false)

/-! ## Helper lemmas and sample data -/

/-- A concrete coordinator request used to instantiate witnesses. -/
def samplePhoto : SchedulePhotoData :=
  ⟨1, "aGVsbG8=", "schedule.png", 11, "image/png", "2025-01-01T00:00:00"⟩

/-- A concrete analysis request used to instantiate witnesses. -/
def sampleRequest : ScheduleImageAnalysisRequest :=
  ⟨1, "%%%", "schedule.png", 11, "image/png", "2025-01-01T00:00:00"⟩

/-- Whether a Laravel call outcome counts as success (status 200 or 201). -/
def laravelOk : HttpResult → Bool
  | .resp status _ _ => decide (status = 200 ∨ status = 201)
  | .fault _ => false

lemma call_laravel_success_truthy (ev : List (String × JVal)) (r : HttpResult) :
    ((call_laravel_create_event ev r).getD "success" (.bool false)).truthy
      = laravelOk r := by
  cases r with
  | resp status body json =>
      rcases Decidable.em (status = 200 ∨ status = 201) with h | h
      · simp [call_laravel_create_event, laravelOk, if_pos h, decide_eq_true h,
          JVal.getD, JVal.getKey, lookupKey, JVal.truthy]
      · simp [call_laravel_create_event, laravelOk, if_neg h, decide_eq_false h,
          JVal.getD, JVal.getKey, lookupKey, JVal.truthy]
  | fault desc => rfl

lemma truthy_bool (b : Bool) : (JVal.bool b).truthy = b := rfl

lemma truthy_arr (xs : List JVal) : (JVal.arr xs).truthy = !xs.isEmpty := rfl

lemma httpError_ne_empty (status : Nat) (body : String) :
    ("HTTP " ++ toString status ++ ": " ++ body) ≠ "" := by
  intro h
  have h1 := congrArg String.length h
  rw [String.length_append, String.length_append, String.length_append] at h1
  have h2 : ("HTTP " : String).length = 5 := rfl
  have h3 : (": " : String).length = 2 := rfl
  have h4 : ("" : String).length = 0 := rfl
  omega

lemma create_events_loop_classify (oracle : Nat → HttpResult) (tid : Int)
    (evs : List (List (String × JVal))) :
    ∀ i, (create_events_loop oracle tid evs i).created.length
          + (create_events_loop oracle tid evs i).failed.length = evs.length
        ∧ (create_events_loop oracle tid evs i).calls = evs.length := by
  induction evs with
  | nil => intro i; simp [create_events_loop]
  | cons ev rest ih =>
      intro i
      have h := ih (i + 1)
      by_cases hb : ((call_laravel_create_event (setKey ev "team_id" (.num tid))
          (oracle i)).getD "success" (.bool false)).truthy
      · simp only [create_events_loop, hb, if_true, List.length_cons]
        omega
      · simp only [create_events_loop, hb, if_false, Bool.false_eq_true,
          List.length_cons]
        omega

lemma create_events_loop_failed_spec (oracle : Nat → HttpResult) (tid : Int)
    (evs : List (List (String × JVal))) :
    ∀ i, ∀ f ∈ (create_events_loop oracle tid evs i).failed,
      ∃ ev ∈ evs, ∃ s,
        f = .obj [("event_data", .obj (setKey ev "team_id" (.num tid))),
                  ("error", .str s)]
        ∧ (s ≠ "" ∨ ∃ j, oracle j = .fault s) := by
  induction evs with
  | nil => intro i f hf; simp [create_events_loop] at hf
  | cons ev rest ih =>
      intro i f hf
      cases hr : oracle i with
      | resp status body json =>
          rcases Decidable.em (status = 200 ∨ status = 201) with h | h
          · rw [create_events_loop] at hf
            rw [hr] at hf
            simp only [call_laravel_create_event, if_pos h, JVal.getD, JVal.getKey,
              lookupKey, if_pos rfl, Option.getD_some, JVal.truthy, if_true] at hf
            obtain ⟨ev2, hev2, hs⟩ := ih (i + 1) f hf
            exact ⟨ev2, List.mem_cons_of_mem _ hev2, hs⟩
          · rw [create_events_loop] at hf
            rw [hr] at hf
            simp only [call_laravel_create_event, if_neg h, JVal.getD, JVal.getKey,
              lookupKey, if_pos rfl, Option.getD_some, JVal.truthy, Bool.false_eq_true,
              if_false, List.mem_cons] at hf
            rcases hf with hf | ⟨_, hf⟩
            · refine ⟨ev, List.mem_cons_self _ _,
                "HTTP " ++ toString status ++ ": " ++ body, ?_,
                Or.inl (httpError_ne_empty status body)⟩
              simp [JVal.getD, JVal.getKey, lookupKey]
            · obtain ⟨ev2, hev2, hs⟩ := ih (i + 1) f hf
              exact ⟨ev2, List.mem_cons_of_mem _ hev2, hs⟩
      | fault desc =>
          rw [create_events_loop] at hf
          rw [hr] at hf
          simp only [call_laravel_create_event, JVal.getD, JVal.getKey,
            lookupKey, if_pos rfl, Option.getD_some, JVal.truthy, Bool.false_eq_true,
            if_false, List.mem_cons] at hf
          rcases hf with hf | ⟨_, hf⟩
          · refine ⟨ev, List.mem_cons_self _ _, desc, ?_, Or.inr ⟨i, hr⟩⟩
            simp [JVal.getD, JVal.getKey, lookupKey]
          · obtain ⟨ev2, hev2, hs⟩ := ih (i + 1) f hf
            exact ⟨ev2, List.mem_cons_of_mem _ hev2, hs⟩

lemma create_events_loop_failed_nonempty (oracle : Nat → HttpResult) (tid : Int)
    (evs : List (List (String × JVal))) :
    ∀ i, (∃ j, j < evs.length ∧ laravelOk (oracle (i + j)) = false) →
      (create_events_loop oracle tid evs i).failed ≠ [] := by
  induction evs with
  | nil =>
      intro i h
      obtain ⟨j, hj, _⟩ := h
      simp at hj
  | cons ev rest ih =>
      intro i h
      obtain ⟨j, hj, hfail⟩ := h
      by_cases hb : ((call_laravel_create_event (setKey ev "team_id" (.num tid))
          (oracle i)).getD "success" (.bool false)).truthy
      · have hok : laravelOk (oracle i) = true := by
          rw [← call_laravel_success_truthy (setKey ev "team_id" (.num tid)) (oracle i)]
          exact hb
        cases j with
        | zero =>
            rw [Nat.add_zero] at hfail
            rw [hok] at hfail
            exact absurd hfail (by simp)
        | succ j' =>
            have hj' : j' < rest.length := by
              simp only [List.length_cons] at hj
              omega
            have harith : i + (j' + 1) = (i + 1) + j' := by omega
            rw [harith] at hfail
            have hne := ih (i + 1) ⟨j', hj', hfail⟩
            simp only [create_events_loop, hb, if_true]
            exact hne
      · simp only [create_events_loop, hb, Bool.false_eq_true, if_false]
        exact List.cons_ne_nil _ _

/-! ## Claims -/

/-- Claim C1, as stated, is false: a completed HTTP call with the 2xx status
201 does not yield the decoded JSON payload as a success result — the
coordinator helper treats every status other than exactly 200 as a failure
carrying the status code and body. -/
theorem C1_counterexample :
    call_schedule_agent_analyze_image samplePhoto
        (.resp 201 "ok" (.obj [("success", .bool true)]))
      = .obj [("success", .bool false), ("error", .str "HTTP 201: ok")]
    ∧ call_schedule_agent_analyze_image samplePhoto
        (.resp 201 "ok" (.obj [("success", .bool true)]))
      ≠ .obj [("success", .bool true)] := by
  constructor
  · rfl
  · intro h
    have h2 := congrArg (fun v => v.getKey "success") h
    simp [call_schedule_agent_analyze_image, JVal.getKey, lookupKey] at h2

/-- Claim C1 (amended): for both coordinator delegation helpers, an HTTP call
completing with status exactly 200 yields the decoded JSON payload as the
success result; any other status (including other 2xx codes) yields a failure
result whose error string carries the status code and response body; and a
transport fault yields a failure result carrying the fault description — in
no case does the helper raise. -/
theorem C1_delegation_normalizes (d : SchedulePhotoData) (payload : JVal)
    (status : Nat) (body : String) (json : JVal) (desc : String) :
    (status = 200 →
      call_schedule_agent_analyze_image d (.resp status body json) = json ∧
      call_schedule_agent_create_events payload (.resp status body json) = json) ∧
    (status ≠ 200 →
      call_schedule_agent_analyze_image d (.resp status body json)
        = .obj [("success", .bool false),
                ("error", .str ("HTTP " ++ toString status ++ ": " ++ body))] ∧
      call_schedule_agent_create_events payload (.resp status body json)
        = .obj [("success", .bool false),
                ("error", .str ("HTTP " ++ toString status ++ ": " ++ body))]) ∧
    (call_schedule_agent_analyze_image d (.fault desc)
        = .obj [("success", .bool false), ("error", .str desc)] ∧
     call_schedule_agent_create_events payload (.fault desc)
        = .obj [("success", .bool false), ("error", .str desc)]) := by
  refine ⟨fun h => ?_, fun h => ?_, rfl, rfl⟩ <;>
    constructor <;>
      simp [call_schedule_agent_analyze_image, call_schedule_agent_create_events, h]

/-- Witness for C1: the amended theorem applied at status 200 (payload passed
through) and at status 500 (normalized failure). -/
theorem C1_delegation_normalizes_witness :
    call_schedule_agent_analyze_image samplePhoto
        (.resp 200 "" (.obj [("x", .num 1)]))
      = .obj [("x", .num 1)]
    ∧ call_schedule_agent_create_events .null (.resp 500 "boom" .null)
      = .obj [("success", .bool false), ("error", .str "HTTP 500: boom")] :=
  ⟨((C1_delegation_normalizes samplePhoto .null 200 "" (.obj [("x", .num 1)]) "z").1
      rfl).1,
   ((C1_delegation_normalizes samplePhoto .null 500 "boom" .null "z").2.1
      (by decide)).2⟩

/-- Claim C2, as stated, is false: when the downstream transport fault's
stringified exception is empty, the failed entry's error string is empty, not
non-empty.  (The event's original data, with the team id attached, is still
retained.) -/
theorem C2_counterexample :
    (create_events (fun _ => .fault "") "T" 5
        [[("title", .str "x")]]).getKey "failed_events"
      = some (.arr [.obj [("event_data",
                           .obj [("title", .str "x"), ("team_id", .num 5)]),
                          ("error", .str "")]]) := rfl

/-- Claim C2 (amended): for every creation request with N candidate events,
`create_events` unconditionally classifies every event into exactly one of
the created-list or the failed-list, so `events_created + events_failed = N`,
and every entry of `failed_events` contains the event's original data with
the team identifier attached together with an error string, where that
string is either non-empty or a verbatim transport-fault description
(HTTP-status failures always produce a non-empty error string); when every
transport-fault description is non-empty, every failed entry's error string
is non-empty. -/
theorem C2_creation_partition (oracle : Nat → HttpResult) (now : String)
    (tid : Int) (events : List (List (String × JVal))) :
    ((create_events oracle now tid events).getKey "events_created"
        = some (.num ((create_events_loop oracle tid events 0).created.length : Int)))
    ∧ ((create_events oracle now tid events).getKey "events_failed"
        = some (.num ((create_events_loop oracle tid events 0).failed.length : Int)))
    ∧ (create_events_loop oracle tid events 0).created.length
        + (create_events_loop oracle tid events 0).failed.length = events.length
    ∧ ((create_events oracle now tid events).getKey "failed_events"
        = some (.arr (create_events_loop oracle tid events 0).failed))
    ∧ (∀ f ∈ (create_events_loop oracle tid events 0).failed,
        ∃ ev ∈ events, ∃ s,
          f = .obj [("event_data", .obj (setKey ev "team_id" (.num tid))),
                    ("error", .str s)]
          ∧ (s ≠ "" ∨ ∃ j, oracle j = .fault s))
    ∧ ((∀ j s, oracle j = .fault s → s ≠ "") →
        ∀ f ∈ (create_events_loop oracle tid events 0).failed,
          ∃ ev ∈ events, ∃ s, s ≠ "" ∧
            f = .obj [("event_data", .obj (setKey ev "team_id" (.num tid))),
                      ("error", .str s)]) :=
  ⟨rfl, rfl, (create_events_loop_classify oracle tid events 0).1, rfl,
   create_events_loop_failed_spec oracle tid events 0,
   fun hfault f hf => by
    obtain ⟨ev, hev, s, hshape, hne⟩ :=
      create_events_loop_failed_spec oracle tid events 0 f hf
    rcases hne with hne | ⟨j, hj⟩
    · exact ⟨ev, hev, s, hne, hshape⟩
    · exact ⟨ev, hev, s, hfault j s hj, hshape⟩⟩

/-- Witness for C2: on a two-event batch where the first call gets 200 and
the second gets 500, the created and failed counts partition the batch, and
(the oracle having no transport faults) every failed entry carries a
non-empty error string. -/
theorem C2_creation_partition_witness :
    ((create_events_loop
        (fun n => if n = 0 then .resp 200 "created" (.obj [("id", .num 1)])
                  else .resp 500 "DB error" .null) 5
        [[("title", .str "a")], [("title", .str "b")]] 0).created.length
      + (create_events_loop
        (fun n => if n = 0 then .resp 200 "created" (.obj [("id", .num 1)])
                  else .resp 500 "DB error" .null) 5
        [[("title", .str "a")], [("title", .str "b")]] 0).failed.length = 2)
    ∧ (∀ f ∈ (create_events_loop
        (fun n => if n = 0 then .resp 200 "created" (.obj [("id", .num 1)])
                  else .resp 500 "DB error" .null) 5
        [[("title", .str "a")], [("title", .str "b")]] 0).failed,
        ∃ ev ∈ [[("title", .str "a")], [("title", .str "b")]], ∃ s, s ≠ "" ∧
          f = .obj [("event_data", .obj (setKey ev "team_id" (.num 5))),
                    ("error", .str s)]) :=
  ⟨(C2_creation_partition
      (fun n => if n = 0 then .resp 200 "created" (.obj [("id", .num 1)])
                else .resp 500 "DB error" .null) "T" 5
      [[("title", .str "a")], [("title", .str "b")]]).2.2.1,
   (C2_creation_partition
      (fun n => if n = 0 then .resp 200 "created" (.obj [("id", .num 1)])
                else .resp 500 "DB error" .null) "T" 5
      [[("title", .str "a")], [("title", .str "b")]]).2.2.2.2.2
     (fun j s h => by by_cases hj : j = 0 <;> simp [hj] at h)⟩

/-- Claim C3: when individual per-event downstream calls fail but the
`create_events` call itself completes, `create_events` still returns
`success=true` with the per-item failures embedded in `failed_events`, one
event's failure does not abort processing of the remaining events (every
event still triggers its downstream call), and the coordinator's overall
orchestration result still reports `success=true`. -/
theorem C3_partial_failures_not_fatal (oracle : Nat → HttpResult) (now : String)
    (tid : Int) (events : List (List (String × JVal)))
    (d : SchedulePhotoData) (b1 b2 : String) (es : List JVal)
    (hes : es ≠ [])
    (hfail : ∃ j, j < events.length ∧ laravelOk (oracle j) = false) :
    ((create_events oracle now tid events).getKey "success" = some (.bool true))
    ∧ create_events_calls oracle tid events = events.length
    ∧ ((create_events oracle now tid events).getKey "failed_events"
        = some (.arr (create_events_loop oracle tid events 0).failed)
       ∧ (create_events_loop oracle tid events 0).failed ≠ [])
    ∧ ((process_schedule_photo d
          (.resp 200 b1 (.obj [("success", .bool true), ("events", .arr es)]))
          (.resp 200 b2 (create_events oracle now tid events))).1.getKey "success"
        = some (.bool true)) := by
  refine ⟨rfl, (create_events_loop_classify oracle tid events 0).2, ⟨rfl, ?_⟩, ?_⟩
  · apply create_events_loop_failed_nonempty oracle tid events 0
    obtain ⟨j, hj, hfj⟩ := hfail
    exact ⟨j, hj, by simpa using hfj⟩
  · rcases es with _ | ⟨e, es2⟩
    · exact absurd rfl hes
    · rfl

/-- Witness for C3: a one-event batch whose single downstream call gets a
500 still yields an overall-success orchestration result. -/
theorem C3_partial_failures_not_fatal_witness :
    ((process_schedule_photo samplePhoto
        (.resp 200 "" (.obj [("success", .bool true),
                             ("events", .arr [.str "ev"])]))
        (.resp 200 "" (create_events (fun _ => .resp 500 "DB error" .null) "T" 5
          [[("title", .str "a")]]))).1.getKey "success"
      = some (.bool true)) :=
  (C3_partial_failures_not_fatal (fun _ => .resp 500 "DB error" .null) "T" 5
    [[("title", .str "a")]] samplePhoto "" "" [.str "ev"]
    (by simp) ⟨0, by simp, by decide⟩).2.2.2

/-- Claim C4: when the analysis step returns a non-success result, the
coordinator returns `success=false` with the upstream error and the team id,
its result has no `parsed_events` field, and the event-creation capability is
never invoked. -/
theorem C4_analysis_failure_terminal (d : SchedulePhotoData) (ar cr : HttpResult)
    (sv : JVal)
    (hget : pyGet (call_schedule_agent_analyze_image d ar) "success" (.bool false)
        = .ok sv)
    (hfail : sv.truthy = false) :
    process_schedule_photo d ar cr
      = (.obj [("success", .bool false),
               ("message", .str "Failed to analyze schedule image"),
               ("error", (call_schedule_agent_analyze_image d ar).getD "error"
                  (.str "Unknown error")),
               ("team_id", .num d.team_id)], false)
    ∧ (process_schedule_photo d ar cr).1.getKey "parsed_events" = none := by
  obtain ⟨kvs, hsa⟩ : ∃ kvs, call_schedule_agent_analyze_image d ar = .obj kvs := by
    cases hx : call_schedule_agent_analyze_image d ar <;>
      first
        | exact ⟨_, rfl⟩
        | (rw [hx] at hget; simp [pyGet] at hget)
  rw [hsa] at hget
  simp only [pyGet, Except.ok.injEq] at hget
  subst hget
  constructor <;>
    simp [process_schedule_photo, process_schedule_photo_body, hsa, pyGet, hfail,
      JVal.getD, JVal.getKey, lookupKey]

/-- Witness for C4: a 500 from the analyze call makes the coordinator fail
with the upstream error and no `parsed_events`. -/
theorem C4_analysis_failure_terminal_witness :
    process_schedule_photo samplePhoto (.resp 500 "oops" .null) (.fault "x")
      = (.obj [("success", .bool false),
               ("message", .str "Failed to analyze schedule image"),
               ("error", (call_schedule_agent_analyze_image samplePhoto
                   (.resp 500 "oops" .null)).getD "error" (.str "Unknown error")),
               ("team_id", .num 1)], false)
    ∧ (process_schedule_photo samplePhoto (.resp 500 "oops" .null)
        (.fault "x")).1.getKey "parsed_events" = none :=
  C4_analysis_failure_terminal samplePhoto (.resp 500 "oops" .null) (.fault "x")
    (.bool false) rfl rfl

/-- Claim C5: when the analysis step succeeds with a non-empty events list
but the event-creation call returns a non-success result, the coordinator
returns `success=false` while still including the full `parsed_events` list
from the analysis step. -/
theorem C5_creation_failure_keeps_parsed_events (d : SchedulePhotoData)
    (ar cr : HttpResult) (es : List JVal) (cv : JVal)
    (hsa : (call_schedule_agent_analyze_image d ar).getKey "success"
        = some (.bool true))
    (hev : (call_schedule_agent_analyze_image d ar).getKey "events"
        = some (.arr es))
    (hes : es ≠ [])
    (hcget : pyGet (call_schedule_agent_create_events
        (.obj [("team_id", .num d.team_id), ("events", .arr es)]) cr) "success"
        (.bool false) = .ok cv)
    (hcf : cv.truthy = false) :
    process_schedule_photo d ar cr
      = (.obj [("success", .bool false),
               ("message", .str "Failed to create events from schedule"),
               ("error", (call_schedule_agent_create_events
                   (.obj [("team_id", .num d.team_id), ("events", .arr es)])
                   cr).getD "error" (.str "Unknown error")),
               ("parsed_events", .arr es),
               ("team_id", .num d.team_id)], true) := by
  obtain ⟨akvs, hA⟩ : ∃ kvs, call_schedule_agent_analyze_image d ar = .obj kvs := by
    cases hx : call_schedule_agent_analyze_image d ar <;>
      first
        | exact ⟨_, rfl⟩
        | (rw [hx] at hsa; simp [JVal.getKey] at hsa)
  obtain ⟨ckvs, hC⟩ : ∃ kvs, call_schedule_agent_create_events
      (.obj [("team_id", .num d.team_id), ("events", .arr es)]) cr = .obj kvs := by
    cases hx : call_schedule_agent_create_events
        (.obj [("team_id", .num d.team_id), ("events", .arr es)]) cr <;>
      first
        | exact ⟨_, rfl⟩
        | (rw [hx] at hcget; simp [pyGet] at hcget)
  rw [hC] at hcget
  simp only [pyGet, Except.ok.injEq] at hcget
  subst hcget
  rw [hA] at hsa hev
  simp only [JVal.getKey] at hsa hev
  rcases es with _ | ⟨e, es2⟩
  · exact absurd rfl hes
  · simp [process_schedule_photo, process_schedule_photo_body, hA, hC, pyGet,
      JVal.getD, JVal.getKey, hsa, hev, hcf, truthy_bool, truthy_arr, pyLen]

/-- Witness for C5: analysis succeeds with one event, the creation call
transport-faults, and the coordinator's failure result keeps the event. -/
theorem C5_creation_failure_keeps_parsed_events_witness :
    process_schedule_photo samplePhoto
        (.resp 200 "" (.obj [("success", .bool true), ("events", .arr [.str "ev"])]))
        (.fault "timed out")
      = (.obj [("success", .bool false),
               ("message", .str "Failed to create events from schedule"),
               ("error", (call_schedule_agent_create_events
                   (.obj [("team_id", .num 1), ("events", .arr [.str "ev"])])
                   (.fault "timed out")).getD "error" (.str "Unknown error")),
               ("parsed_events", .arr [.str "ev"]),
               ("team_id", .num 1)], true) :=
  C5_creation_failure_keeps_parsed_events samplePhoto
    (.resp 200 "" (.obj [("success", .bool true), ("events", .arr [.str "ev"])]))
    (.fault "timed out") [.str "ev"] (.bool false) rfl rfl (by simp) rfl rfl

/-- Claim C6: for an empty candidate-event list, `create_events` returns
`events_created=0`, `events_failed=0`, `created_events=[]` and
`failed_events=[]` without invoking the downstream creation capability; in
particular with `team_id` 5 the scenario output holds. -/
theorem C6_empty_events_shortcircuit :
    (∀ (oracle : Nat → HttpResult) (now : String) (tid : Int),
      create_events oracle now tid []
        = .obj [("success", .bool true),
                ("message", .str "Event creation completed: 0 created, 0 failed"),
                ("events_created", .num 0),
                ("events_failed", .num 0),
                ("created_events", .arr []),
                ("failed_events", .arr []),
                ("team_id", .num tid),
                ("processed_at", .str now)]
      ∧ create_events_calls oracle tid [] = 0)
    ∧ ((create_events (fun _ => .fault "down") "T" 5 []).getKey "events_created"
          = some (.num 0)
       ∧ (create_events (fun _ => .fault "down") "T" 5 []).getKey "events_failed"
          = some (.num 0)
       ∧ (create_events (fun _ => .fault "down") "T" 5 []).getKey "created_events"
          = some (.arr [])
       ∧ (create_events (fun _ => .fault "down") "T" 5 []).getKey "failed_events"
          = some (.arr [])) := by
  refine ⟨fun oracle now tid => ⟨?_, rfl⟩, rfl, rfl, rfl, rfl⟩
  simp [create_events, create_events_loop]
  rfl

/-- Claim C7: when the uploaded file's base64 content fails to decode,
`analyze_schedule_image` returns `success=false` with a decode-failure
message and the decode error as the root cause, and never invokes the
downstream LLM-analysis call. -/
theorem C7_decode_failure_terminal (decode : String → Except String (List Nat))
    (now : String) (d : ScheduleImageAnalysisRequest) (e : String)
    (hdec : decode d.file_content = .error e) :
    analyze_schedule_image decode now d
      = (.obj [("success", .bool false),
               ("message", .str "Failed to decode uploaded file"),
               ("error", .str e)], false) := by
  simp [analyze_schedule_image, hdec]

/-- Witness for C7: a decoder rejecting the content makes the tool return
the decode failure without calling the LLM. -/
theorem C7_decode_failure_terminal_witness :
    analyze_schedule_image (fun _ => .error "Invalid base64-encoded string") "T"
        sampleRequest
      = (.obj [("success", .bool false),
               ("message", .str "Failed to decode uploaded file"),
               ("error", .str "Invalid base64-encoded string")], false) :=
  C7_decode_failure_terminal (fun _ => .error "Invalid base64-encoded string") "T"
    sampleRequest "Invalid base64-encoded string" rfl

/-- Claim C8: `call_laravel_create_event` succeeds exactly when the HTTP
status is 200 or 201, any other status yields the error string
`"HTTP {status}: {body}"`, and the two-event scenario (first 200, second 500
with body "DB error") yields one created, one failed, and the failed entry
carrying `"HTTP 500: DB error"`. -/
theorem C8_laravel_status_acceptance (ev : List (String × JVal)) (status : Nat)
    (body : String) (json : JVal) :
    ((((call_laravel_create_event ev (.resp status body json)).getD "success"
        (.bool false)).truthy = true) ↔ (status = 200 ∨ status = 201))
    ∧ (¬ (status = 200 ∨ status = 201) →
        (call_laravel_create_event ev (.resp status body json)).getKey "error"
          = some (.str ("HTTP " ++ toString status ++ ": " ++ body)))
    ∧ ((create_events
          (fun n => if n = 0 then .resp 200 "created" (.obj [("id", .num 1)])
                    else .resp 500 "DB error" .null) "T" 5
          [[("title", .str "First")], [("title", .str "Second")]]).getKey
          "events_created" = some (.num 1)
       ∧ (create_events
          (fun n => if n = 0 then .resp 200 "created" (.obj [("id", .num 1)])
                    else .resp 500 "DB error" .null) "T" 5
          [[("title", .str "First")], [("title", .str "Second")]]).getKey
          "events_failed" = some (.num 1)
       ∧ (create_events
          (fun n => if n = 0 then .resp 200 "created" (.obj [("id", .num 1)])
                    else .resp 500 "DB error" .null) "T" 5
          [[("title", .str "First")], [("title", .str "Second")]]).getKey
          "failed_events"
          = some (.arr [.obj [("event_data",
                               .obj [("title", .str "Second"), ("team_id", .num 5)]),
                              ("error", .str "HTTP 500: DB error")]])) := by
  refine ⟨?_, fun h => ?_, rfl, rfl, rfl⟩
  · rw [call_laravel_success_truthy]
    simp [laravelOk]
  · simp [call_laravel_create_event, if_neg h, JVal.getKey, lookupKey]

/-- Witness for C8: the acceptance test applied at status 200 and the error
string extracted at status 500. -/
theorem C8_laravel_status_acceptance_witness :
    (((call_laravel_create_event [] (.resp 200 "" .null)).getD "success"
        (.bool false)).truthy = true)
    ∧ (call_laravel_create_event [] (.resp 500 "boom" .null)).getKey "error"
        = some (.str ("HTTP " ++ toString 500 ++ ": " ++ "boom")) :=
  ⟨(C8_laravel_status_acceptance [] 200 "" .null).1.mpr (Or.inl rfl),
   (C8_laravel_status_acceptance [] 500 "boom" .null).2.1 (by decide)⟩

lemma process_body_ok_cases (d : SchedulePhotoData) (ar cr : HttpResult)
    (v : JVal) (flag : Bool)
    (h : process_schedule_photo_body d ar cr = .ok (v, flag)) :
    v.getKey "success" = some (.bool false)
    ∨ (v.getKey "success" = some (.bool true)
       ∧ ∃ a, v.getKey "analysis_results" = some (.obj a)
         ∧ lookupKey a "processing_completed_at" = some (.str d.uploaded_at)) := by
  simp only [process_schedule_photo_body] at h
  split at h
  · exact absurd h (by simp)
  · split at h
    · obtain ⟨hv, hf⟩ := Prod.mk.injEq .. ▸ (Except.ok.injEq _ _ ▸ h)
      subst hv
      left
      rfl
    · split at h
      · exact absurd h (by simp)
      · split at h
        · split at h
          · exact absurd h (by simp)
          · split at h
            · obtain ⟨hv, hf⟩ := Prod.mk.injEq .. ▸ (Except.ok.injEq _ _ ▸ h)
              subst hv
              left
              rfl
            · obtain ⟨hv, hf⟩ := Prod.mk.injEq .. ▸ (Except.ok.injEq _ _ ▸ h)
              subst hv
              right
              exact ⟨rfl, _, rfl, rfl⟩
        · obtain ⟨hv, hf⟩ := Prod.mk.injEq .. ▸ (Except.ok.injEq _ _ ▸ h)
          subst hv
          right
          exact ⟨rfl, _, rfl, rfl⟩

/-- Claim C9: each tool handler is total — every run of
`process_schedule_photo`, `analyze_schedule_image` and `create_events`
produces a result value carrying a boolean `success` flag, and any exception
raised inside `process_schedule_photo`'s body (the one uncaught raise point)
is caught by the outer handler and converted into a `success=false` result
whose message carries the exception's string. -/
theorem C9_tool_handlers_total (d : SchedulePhotoData) (ar cr : HttpResult)
    (decode : String → Except String (List Nat)) (now : String)
    (req : ScheduleImageAnalysisRequest) (oracle : Nat → HttpResult)
    (tid : Int) (events : List (List (String × JVal))) (e : String) :
    (∃ b, (process_schedule_photo d ar cr).1.getKey "success" = some (.bool b))
    ∧ (∃ b, (analyze_schedule_image decode now req).1.getKey "success"
        = some (.bool b))
    ∧ ((create_events oracle now tid events).getKey "success" = some (.bool true))
    ∧ (process_schedule_photo_body d ar cr = .error e →
        process_schedule_photo d ar cr
          = (.obj [("success", .bool false),
                   ("message", .str ("Failed to process schedule photo: " ++ e)),
                   ("team_id", .num d.team_id)], false)) := by
  refine ⟨?_, ?_, rfl, fun hb => by simp [process_schedule_photo, hb]⟩
  · cases hb : process_schedule_photo_body d ar cr with
    | ok p =>
        rcases process_body_ok_cases d ar cr p.1 p.2 hb with hfalse | ⟨htrue, _⟩
        · exact ⟨false, by simpa [process_schedule_photo, hb] using hfalse⟩
        · exact ⟨true, by simpa [process_schedule_photo, hb] using htrue⟩
    | error e2 =>
        exact ⟨false, by simp [process_schedule_photo, hb, JVal.getKey, lookupKey]⟩
  · cases hd : decode req.file_content with
    | error e2 =>
        exact ⟨false, by simp [analyze_schedule_image, hd, JVal.getKey, lookupKey]⟩
    | ok fc =>
        exact ⟨true, by simp [analyze_schedule_image, hd,
          call_llm_for_schedule_analysis, JVal.getD, JVal.getKey, lookupKey,
          truthy_bool, JVal.truthy]⟩

/-- Witness for C9: concrete runs of the three handlers, with the exception
branch exercised by an analysis payload whose `events` field is an `int`
(so `len(events)` raises a TypeError that the outer handler converts). -/
theorem C9_tool_handlers_total_witness :
    (∃ b, (process_schedule_photo samplePhoto
        (.resp 200 "" (.obj [("success", .bool true), ("events", .num 7)]))
        (.fault "x")).1.getKey "success" = some (.bool b))
    ∧ (∃ b, (analyze_schedule_image (fun _ => .error "bad") "T"
        sampleRequest).1.getKey "success" = some (.bool b))
    ∧ ((create_events (fun _ => .fault "f") "T" 5 []).getKey "success"
        = some (.bool true))
    ∧ (process_schedule_photo samplePhoto
          (.resp 200 "" (.obj [("success", .bool true), ("events", .num 7)]))
          (.fault "x")
        = (.obj [("success", .bool false),
                 ("message", .str ("Failed to process schedule photo: "
                    ++ "object of type int has no len()")),
                 ("team_id", .num 1)], false)) :=
  let h := C9_tool_handlers_total samplePhoto
    (.resp 200 "" (.obj [("success", .bool true), ("events", .num 7)]))
    (.fault "x") (fun _ => .error "bad") "T" sampleRequest
    (fun _ => .fault "f") 5 [] "object of type int has no len()"
  ⟨h.1, h.2.1, h.2.2.1, h.2.2.2 rfl⟩

/-- Claim C10: whenever the coordinator reports overall success, the
`processing_completed_at` field inside `analysis_results` is the
`uploaded_at` string taken verbatim from the input request, not a time
observed when processing finished. -/
theorem C10_completion_timestamp_is_upload_time (d : SchedulePhotoData)
    (ar cr : HttpResult)
    (hs : (process_schedule_photo d ar cr).1.getKey "success"
        = some (.bool true)) :
    ∃ a, (process_schedule_photo d ar cr).1.getKey "analysis_results"
        = some (.obj a)
      ∧ lookupKey a "processing_completed_at" = some (.str d.uploaded_at) := by
  cases hb : process_schedule_photo_body d ar cr with
  | error e =>
      exfalso
      have hfalse : (process_schedule_photo d ar cr).1.getKey "success"
          = some (.bool false) := by
        simp [process_schedule_photo, hb, JVal.getKey, lookupKey]
      rw [hfalse] at hs
      simp at hs
  | ok p =>
      rcases process_body_ok_cases d ar cr p.1 p.2 hb with hfalse | ⟨htrue, a, ha, hpc⟩
      · exfalso
        have hf2 : (process_schedule_photo d ar cr).1.getKey "success"
            = some (.bool false) := by
          simpa [process_schedule_photo, hb] using hfalse
        rw [hf2] at hs
        simp at hs
      · exact ⟨a, by simpa [process_schedule_photo, hb] using ha, hpc⟩

/-- Witness for C10: a successful run (analysis succeeds with no events)
reports `processing_completed_at` equal to the request's `uploaded_at`. -/
theorem C10_completion_timestamp_is_upload_time_witness :
    ∃ a, (process_schedule_photo samplePhoto
        (.resp 200 "" (.obj [("success", .bool true), ("events", .arr [])]))
        (.fault "x")).1.getKey "analysis_results" = some (.obj a)
      ∧ lookupKey a "processing_completed_at"
          = some (.str samplePhoto.uploaded_at) :=
  C10_completion_timestamp_is_upload_time samplePhoto
    (.resp 200 "" (.obj [("success", .bool true), ("events", .arr [])]))
    (.fault "x") rfl
